import Mathlib

/-!
Verification development for the Vappi voice-bot backend (`app.py`).

The file shallowly embeds the two Flask handlers `generate_voice` (`/voice`)
and `book_appointment` (`/book`) as pure Lean functions.  Python values that
arrive through `request.get_json()` are modelled by the inductive type `Json`;
Python exceptions are modelled with `Except String`, the string being
`str(e)` of the raised exception; the outer `try/except Exception` block of
each handler is modelled by mapping such an error to the `(500, {error: str(e)})`
response the handler's last lines build.  The outbound `requests.post` calls
are modelled by recording the payload of each call that the code would issue,
in order, while the two upstream responses are inputs of the embedded handler.

Library behaviour embedded here (not part of `app.py` itself but of the
libraries it calls, modelled from their documented semantics):
  * `datetime.fromisoformat` for the CPython 3.7-3.10 grammar
    `YYYY-MM-DD[<sep>HH[:MM[:SS[.fff[fff]]]][+HH:MM[:SS]]]`;
  * `pytz.timezone("America/Chicago").localize`, which raises
    `ValueError("Not naive datetime (tzinfo is already set)")` on an
    offset-aware datetime and otherwise attaches the zone's UTC offset for
    the given wall-clock date (post-2007 US daylight-saving rule,
    `is_dst=False` resolution at the transition hours);
  * `datetime.isoformat`, printing seconds always, microseconds only when
    non-zero, and the UTC offset as `+HH:MM`/`-HH:MM` when aware.
-/

namespace Vappi

/-- Python values as produced by `request.get_json()` / `response.json()`. -/
inductive Json where
  | null
  | bool (b : Bool)
  | num (n : Int)
  | str (s : String)
  | arr (xs : List Json)
  | obj (fields : List (String × Json))

/-- First binding of a key in a Python dict (keys are unique in a parsed
JSON object, so first-match lookup is dict lookup). -/
def jlookup : List (String × Json) → String → Option Json
  | [], _ => none
  | (k, v) :: rest, key => if k = key then some v else jlookup rest key

/-- Python truthiness of a JSON-decoded value. -/
def pyTruthy : Json → Bool
  | .null => false
  | .bool b => b
  | .num n => n != 0
  | .str s => s != ""
  | .arr xs => !xs.isEmpty
  | .obj fs => !fs.isEmpty

/-- Python type name of a JSON-decoded value, as it appears in
`TypeError` / `AttributeError` messages. -/
def pyTypeName : Json → String
  | .null => "NoneType"
  | .bool _ => "bool"
  | .num _ => "int"
  | .str _ => "str"
  | .arr _ => "list"
  | .obj _ => "dict"

/-- Whether `nee` occurs at the start of `hay`. -/
def isPrefixList : List Char → List Char → Bool
  | [], _ => true
  | _ :: _, [] => false
  | a :: as, b :: bs => a = b && isPrefixList as bs

/-- Whether `nee` occurs as a contiguous run inside `hay`
(Python `sub in str` semantics). -/
def hasSubList (nee : List Char) : List Char → Bool
  | [] => nee.isEmpty
  | c :: rest => isPrefixList nee (c :: rest) || hasSubList nee rest

/-- Python `k == x` where `k` is a string: true exactly for an equal string. -/
def eqStrJson (k : String) : Json → Bool
  | .str s => s = k
  | _ => false

/-- Python `key in data` for a JSON-decoded value; `.error` models the
`TypeError` raised when the value does not support membership tests. -/
def pyContains (data : Json) (k : String) : Except String Bool :=
  match data with
  | .obj fs => .ok (jlookup fs k).isSome
  | .str s => .ok (hasSubList k.data s.data)
  | .arr xs => .ok (xs.any (eqStrJson k))
  | .null => .error "argument of type 'NoneType' is not iterable"
  | .bool _ => .error "argument of type 'bool' is not iterable"
  | .num _ => .error "argument of type 'int' is not iterable"

/-- Python `data[k]` with a string key; errors are `str(e)` of the
`KeyError` / `TypeError` Python raises. -/
def pyIndex (data : Json) (k : String) : Except String Json :=
  match data with
  | .obj fs =>
    match jlookup fs k with
    | some v => .ok v
    | none => .error ("'" ++ k ++ "'")
  | .str _ => .error "string indices must be integers"
  | .arr _ => .error "list indices must be integers or slices, not str"
  | .null => .error "'NoneType' object is not subscriptable"
  | .bool _ => .error "'bool' object is not subscriptable"
  | .num _ => .error "'int' object is not subscriptable"

/-- Python `data.get(k)`: `None` for a missing key; `AttributeError` when the
receiver is not a dict. -/
def dictGet (j : Json) (k : String) : Except String Json :=
  match j with
  | .obj fs => .ok ((jlookup fs k).getD .null)
  | _ => .error ("'" ++ pyTypeName j ++ "' object has no attribute 'get'")

/-- Python `data.get(k, d)` with an explicit default. -/
def dictGetD (j : Json) (k : String) (d : Json) : Except String Json :=
  match j with
  | .obj fs => .ok ((jlookup fs k).getD d)
  | _ => .error ("'" ++ pyTypeName j ++ "' object has no attribute 'get'")

/-! ## Python `str.split(' ')` / `' '.join` (name splitting, app.py:157-158) -/

/-- Python `str.split(sep)` with an explicit one-character separator:
every occurrence separates, empty pieces are kept, `""` splits to `[""]`. -/
def splitOnChar (c : Char) : List Char → List (List Char)
  | [] => [[]]
  | x :: xs =>
    let r := splitOnChar c xs
    if x = c then [] :: r
    else
      match r with
      | [] => [[x]]
      | h :: t => (x :: h) :: t

/-- Python `sep.join(pieces)` with a one-character separator. -/
def joinWith (c : Char) : List (List Char) → List Char
  | [] => []
  | [x] => x
  | x :: y :: xs => x ++ c :: joinWith c (y :: xs)

/-- `data['name'].split(' ')[0]` (app.py:157). `split(' ')` never returns an
empty list, so the `headD` default is never taken. -/
def pyFirstName (name : String) : String :=
  String.mk ((splitOnChar ' ' name.data).headD [])

/-- `" ".join(data['name'].split(' ')[1:]) if len(data['name'].split(' ')) > 1
else ""` (app.py:158). -/
def pyLastName (name : String) : String :=
  let parts := splitOnChar ' ' name.data
  if parts.length > 1 then String.mk (joinWith ' ' parts.tail) else ""

/-! ## `datetime` / `pytz` model -/

/-- The fields of a CPython `datetime` (naive part). -/
structure NaiveDT where
  year : Nat
  month : Nat
  day : Nat
  hour : Nat
  minute : Nat
  second : Nat
  microsecond : Nat
deriving DecidableEq

/-- A CPython `datetime`: naive when `tzOffsetSec = none`, otherwise aware
with the given UTC offset in seconds. -/
structure PyDateTime where
  dt : NaiveDT
  tzOffsetSec : Option Int
deriving DecidableEq

def isLeap (y : Nat) : Bool :=
  y % 4 = 0 && (y % 100 != 0 || y % 400 = 0)

def daysInMonth (y m : Nat) : Nat :=
  if m = 2 then (if isLeap y then 29 else 28)
  else if m = 4 ∨ m = 6 ∨ m = 9 ∨ m = 11 then 30
  else 31

/-- Numeric value of a list of decimal digit characters. -/
def digitsVal (cs : List Char) : Nat :=
  cs.foldl (fun a c => a * 10 + (c.toNat - 48)) 0

/-- Fractional-second part of the 3.7-3.10 `fromisoformat` grammar:
exactly 3 or 6 digits after the dot; value returned in microseconds. -/
def parseFrac (cs : List Char) : Option (Nat × List Char) :=
  let ds := cs.takeWhile Char.isDigit
  if ds.length = 3 then some (digitsVal ds * 1000, cs.drop 3)
  else if ds.length = 6 then some (digitsVal ds, cs.drop 6)
  else none

/-- Time part `HH[:MM[:SS[.fff[fff]]]]` of the `fromisoformat` grammar;
returns `(hour, minute, second, microsecond, rest)`. -/
def parseTimeChars (cs : List Char) : Option (Nat × Nat × Nat × Nat × List Char) :=
  match cs with
  | h1 :: h2 :: rest =>
    if h1.isDigit && h2.isDigit then
      let hh := digitsVal [h1, h2]
      match rest with
      | ':' :: m1 :: m2 :: rest2 =>
        if m1.isDigit && m2.isDigit then
          let mi := digitsVal [m1, m2]
          match rest2 with
          | ':' :: s1 :: s2 :: rest3 =>
            if s1.isDigit && s2.isDigit then
              let ss := digitsVal [s1, s2]
              match rest3 with
              | '.' :: f =>
                match parseFrac f with
                | some (us, rest4) => some (hh, mi, ss, us, rest4)
                | none => none
              | _ => some (hh, mi, ss, 0, rest3)
            else none
          | _ => some (hh, mi, 0, 0, rest2)
        else none
      | _ => some (hh, 0, 0, 0, rest)
    else none
  | _ => none

/-- UTC-offset part `[+|-]HH:MM[:SS]` of the `fromisoformat` grammar
(offset microseconds, which CPython also accepts, are not modelled);
`some none` means "no offset present", the inner value is in seconds. -/
def parseTzChars (cs : List Char) : Option (Option Int) :=
  match cs with
  | [] => some none
  | c :: rest =>
    if c = '+' ∨ c = '-' then
      match rest with
      | h1 :: h2 :: ':' :: m1 :: m2 :: rest2 =>
        if h1.isDigit && h2.isDigit && m1.isDigit && m2.isDigit then
          let base := digitsVal [h1, h2] * 3600 + digitsVal [m1, m2] * 60
          match rest2 with
          | [] => some (some (if c = '-' then -(base : Int) else (base : Int)))
          | ':' :: s1 :: s2 :: [] =>
            if s1.isDigit && s2.isDigit then
              let tot := base + digitsVal [s1, s2]
              some (some (if c = '-' then -(tot : Int) else (tot : Int)))
            else none
          | _ => none
        else none
      | _ => none
    else none

/-- Syntactic components accepted by `fromisoformat` before range checks. -/
structure IsoParts where
  year : Nat
  month : Nat
  day : Nat
  hour : Nat
  minute : Nat
  second : Nat
  microsecond : Nat
  tz : Option Int
deriving DecidableEq

/-- The syntactic phase of `datetime.fromisoformat`: `YYYY-MM-DD`, then an
optional single separator character (any character) followed by the time,
then an optional UTC offset. -/
def parseIsoChars (cs : List Char) : Option IsoParts :=
  match cs with
  | y1 :: y2 :: y3 :: y4 :: '-' :: m1 :: m2 :: '-' :: d1 :: d2 :: rest =>
    if (y1.isDigit && y2.isDigit && y3.isDigit && y4.isDigit) &&
       (m1.isDigit && m2.isDigit) && (d1.isDigit && d2.isDigit) then
      let y := digitsVal [y1, y2, y3, y4]
      let mo := digitsVal [m1, m2]
      let da := digitsVal [d1, d2]
      match rest with
      | [] => some ⟨y, mo, da, 0, 0, 0, 0, none⟩
      | _ :: timeChars =>
        match parseTimeChars timeChars with
        | none => none
        | some (hh, mi, ss, us, rest2) =>
          match parseTzChars rest2 with
          | none => none
          | some tz => some ⟨y, mo, da, hh, mi, ss, us, tz⟩
    else none
  | _ => none

/-- The range checks of the `datetime` constructor, with CPython's
`ValueError` messages. -/
def validateParts (p : IsoParts) : Except String PyDateTime :=
  if p.year < 1 then .error ("year " ++ toString p.year ++ " is out of range")
  else if p.month < 1 ∨ 12 < p.month then .error "month must be in 1..12"
  else if p.day < 1 ∨ daysInMonth p.year p.month < p.day then
    .error "day is out of range for month"
  else if 23 < p.hour then .error "hour must be in 0..23"
  else if 59 < p.minute then .error "minute must be in 0..59"
  else if 59 < p.second then .error "second must be in 0..59"
  else
    match p.tz with
    | some off =>
      if off ≤ -86400 ∨ 86400 ≤ off then
        .error "offset must be a timedelta strictly between -timedelta(hours=24) and timedelta(hours=24)."
      else .ok ⟨⟨p.year, p.month, p.day, p.hour, p.minute, p.second, p.microsecond⟩, some off⟩
    | none => .ok ⟨⟨p.year, p.month, p.day, p.hour, p.minute, p.second, p.microsecond⟩, none⟩

/-- `datetime.fromisoformat` (app.py:138 calls this on `data['selectedSlot']`). -/
def fromisoformat (s : String) : Except String PyDateTime :=
  match parseIsoChars s.data with
  | none => .error ("Invalid isoformat string: '" ++ s ++ "'")
  | some p => validateParts p

/-- Zeller's congruence: `0` is Saturday, `1` is Sunday. -/
def zellerH (y m d : Nat) : Nat :=
  let y' := if m ≤ 2 then y - 1 else y
  let m' := if m ≤ 2 then m + 12 else m
  let K := y' % 100
  let J := y' / 100
  (d + (13 * (m' + 1)) / 5 + K + K / 4 + J / 4 + 5 * J) % 7

/-- Day of month of the first Sunday of the given month. -/
def firstSundayOfMonth (y m : Nat) : Nat :=
  ((((List.range 7).map (· + 1)).find? (fun d => zellerH y m d = 1)).getD 1)

/-- Whether the given wall-clock datetime falls in America/Chicago daylight
saving time under the post-2007 US rule (DST runs from 02:00 standard time
on the second Sunday of March to 02:00 daylight time on the first Sunday of
November; with pytz's `is_dst=False` resolution the DST wall-clock window is
[second Sunday of March 03:00, first Sunday of November 01:00)). -/
def isChicagoDST (d : NaiveDT) : Bool :=
  let springDay := firstSundayOfMonth d.year 3 + 7
  let fallDay := firstSundayOfMonth d.year 11
  let key := (d.month * 100 + d.day) * 100 + d.hour
  (3 * 10000 + springDay * 100 + 3 ≤ key) && (key < 11 * 10000 + fallDay * 100 + 1)

/-- UTC offset, in seconds, of America/Chicago at the given wall-clock time:
CDT (-05:00) during daylight saving, CST (-06:00) otherwise. -/
def chicagoOffsetSec (d : NaiveDT) : Int :=
  if isChicagoDST d then -18000 else -21600

/-- `pytz.timezone("America/Chicago").localize(dt)` (app.py:134,138): raises
`ValueError` on an aware datetime, otherwise attaches the zone's offset. -/
def pytzLocalize (p : PyDateTime) : Except String PyDateTime :=
  match p.tzOffsetSec with
  | some _ => .error "Not naive datetime (tzinfo is already set)"
  | none => .ok ⟨p.dt, some (chicagoOffsetSec p.dt)⟩

def pad2 (n : Nat) : String :=
  if n < 10 then "0" ++ toString n else toString n

def pad4 (n : Nat) : String :=
  if n < 10 then "000" ++ toString n
  else if n < 100 then "00" ++ toString n
  else if n < 1000 then "0" ++ toString n
  else toString n

def pad6 (n : Nat) : String :=
  if n < 10 then "00000" ++ toString n
  else if n < 100 then "0000" ++ toString n
  else if n < 1000 then "000" ++ toString n
  else if n < 10000 then "00" ++ toString n
  else if n < 100000 then "0" ++ toString n
  else toString n

/-- `datetime.isoformat` of the naive fields: seconds always printed,
microseconds only when non-zero. -/
def NaiveDT.isoformatCore (d : NaiveDT) : String :=
  pad4 d.year ++ "-" ++ pad2 d.month ++ "-" ++ pad2 d.day ++ "T" ++
  pad2 d.hour ++ ":" ++ pad2 d.minute ++ ":" ++ pad2 d.second ++
  (if d.microsecond = 0 then "" else "." ++ pad6 d.microsecond)

/-- The `±HH:MM[:SS]` suffix `isoformat` prints for an aware datetime. -/
def tzSuffix (off : Int) : String :=
  let sign := if off < 0 then "-" else "+"
  let a := off.natAbs
  let hh := a / 3600
  let mm := (a % 3600) / 60
  let ss := a % 60
  sign ++ pad2 hh ++ ":" ++ pad2 mm ++ (if ss = 0 then "" else ":" ++ pad2 ss)

/-- `datetime.isoformat` (app.py:183,196). -/
def PyDateTime.isoformat (p : PyDateTime) : String :=
  p.dt.isoformatCore ++
  (match p.tzOffsetSec with
   | none => ""
   | some off => tzSuffix off)

/-! ## HTTP surface of the two handlers -/

/-- An upstream `requests.Response`: its status code, its decoded text
(`response.text`), its raw bytes (`response.content`, modelled as a string),
and the outcome of `response.json()` (`.error` when the body is not JSON). -/
structure HttpResp where
  status : Nat
  text : String
  content : String
  jsonBody : Except String Json

/-- The three GoHighLevel environment variables read at app.py:27-29
(`os.getenv` yields `None` when unset). -/
structure BookEnv where
  GHL_API_KEY : Option String
  GHL_LOCATION_ID : Option String
  GHL_CALENDAR_ID : Option String

/-- Python truthiness of an `os.getenv` result: set and non-empty. -/
def truthyOpt : Option String → Bool
  | none => false
  | some s => s != ""

/-- The JSON payload of the contact-upsert call (app.py:154-160). -/
structure ContactPayload where
  email : Json
  phone : Json
  firstName : String
  lastName : String
  locationId : Option String

/-- The JSON payload of the appointment-creation call (app.py:180-187). -/
structure CalendarPayload where
  calendarId : Option String
  contactId : Json
  startTime : String
  title : String
  description : String
  locationId : Option String

/-- One outbound CRM call issued by `/book`, with its payload. -/
inductive Call where
  | contact (p : ContactPayload)
  | appointment (p : CalendarPayload)

/-- Inputs of one `/book` request: the `request.get_json()` outcome (`.error`
models an exception raised while reading the body), the configuration, and
the responses the two CRM endpoints would return if called. -/
structure BookInput where
  data : Except String Json
  env : BookEnv
  contactResp : HttpResp
  calendarResp : HttpResp

/-- `{"error": msg}` response body. -/
def errObj (msg : String) : Json :=
  .obj [("error", .str msg)]

/-- `{"error": msg, "details": det}` response body. -/
def errDetails (msg det : String) : Json :=
  .obj [("error", .str msg), ("details", .str det)]

/-- The 200 success body of `/book` (app.py:193-198). -/
def successBody (t : PyDateTime) (aj : Json) : Json :=
  .obj [("success", .bool true),
        ("message", .str "Appointment booked successfully"),
        ("scheduled_time", .str t.isoformat),
        ("appointment", aj)]

/-- `required_fields = ['name', 'phone', 'email', 'selectedSlot']` (app.py:125). -/
def requiredFields : List String :=
  ["name", "phone", "email", "selectedSlot"]

/-- The validation loop of app.py:126-129: the first field whose membership
test is false, `none` when all pass, `.error` when a membership test raises. -/
def findMissing (data : Json) : List String → Except String (Option String)
  | [] => .ok none
  | f :: rest =>
    match pyContains data f with
    | .error e => .error e
    | .ok true => findMissing data rest
    | .ok false => .ok (some f)

/-- `central.localize(datetime.fromisoformat(data['selectedSlot']))`
(app.py:138), the whole expression sitting inside the inner `try`: the
subscript, a non-string argument (`TypeError: fromisoformat: argument must be
str`), a parse failure and the `localize` failure all surface here. -/
def parseSlotTime (data : Json) : Except String PyDateTime :=
  match pyIndex data "selectedSlot" with
  | .error e => .error e
  | .ok (.str s) =>
    match fromisoformat s with
    | .error e => .error e
    | .ok t => pytzLocalize t
  | .ok _ => .error "fromisoformat: argument must be str"

/-- `all([GHL_API_KEY, GHL_LOCATION_ID, GHL_CALENDAR_ID])` (app.py:144). -/
def ghlConfigured (env : BookEnv) : Bool :=
  truthyOpt env.GHL_API_KEY && truthyOpt env.GHL_LOCATION_ID &&
  truthyOpt env.GHL_CALENDAR_ID

/-- Builds `contact_payload` (app.py:154-160), evaluating the subscripts in
dict-literal order; also returns the name string for reuse in the
appointment title.  A non-string name raises (`AttributeError: ... has no
attribute 'split'`). -/
def mkContactPayload (data : Json) (env : BookEnv) :
    Except String (ContactPayload × String) :=
  match pyIndex data "email" with
  | .error e => .error e
  | .ok ev =>
    match pyIndex data "phone" with
    | .error e => .error e
    | .ok pv =>
      match pyIndex data "name" with
      | .error e => .error e
      | .ok (.str nm) =>
        .ok (⟨ev, pv, pyFirstName nm, pyLastName nm, env.GHL_LOCATION_ID⟩, nm)
      | .ok v => .error ("'" ++ pyTypeName v ++ "' object has no attribute 'split'")

/-- `contact_data.get('id') or contact_data.get('contact', {}).get('id')`
(app.py:172), with Python's short-circuiting `or`. -/
def extractContactId (cd : Json) : Except String Json :=
  match dictGet cd "id" with
  | .error e => .error e
  | .ok v1 =>
    if pyTruthy v1 then .ok v1
    else
      match dictGetD cd "contact" (.obj []) with
      | .error e => .error e
      | .ok c => dictGet c "id"

/-- `calendar_payload` (app.py:180-187). -/
def calPayload (inp : BookInput) (cid : Json) (t : PyDateTime) (nm : String) :
    CalendarPayload :=
  ⟨inp.env.GHL_CALENDAR_ID, cid, t.isoformat,
   "Appointment with " ++ nm,
   "Appointment booked via VAPPI Voice Bot",
   inp.env.GHL_LOCATION_ID⟩

/-- The `/book` handler from the contact-upsert call on (app.py:162-204):
the contact call has been issued, so every outcome's trace starts with it.
Errors raised here (a non-JSON upstream body, an id extraction on a
non-dict) are turned into the generic 500 of the outer `except` block. -/
def afterContact (inp : BookInput) (t : PyDateTime) (cp : ContactPayload)
    (nm : String) : (Nat × Json) × List Call :=
  if inp.contactResp.status ∈ [200, 201] then
    match inp.contactResp.jsonBody with
    | .error e => ((500, errObj e), [.contact cp])
    | .ok cd =>
      match extractContactId cd with
      | .error e => ((500, errObj e), [.contact cp])
      | .ok cid =>
        if pyTruthy cid then
          if inp.calendarResp.status ∈ [200, 201] then
            match inp.calendarResp.jsonBody with
            | .error e =>
              ((500, errObj e),
               [.contact cp, .appointment (calPayload inp cid t nm)])
            | .ok aj =>
              ((200, successBody t aj),
               [.contact cp, .appointment (calPayload inp cid t nm)])
          else
            ((500, errDetails "Failed to book appointment" inp.calendarResp.text),
             [.contact cp, .appointment (calPayload inp cid t nm)])
        else ((500, errObj "Failed to get contact ID"), [.contact cp])
  else
    ((500, errDetails "Failed to create contact" inp.contactResp.text),
     [.contact cp])

/-- The `/book` handler `book_appointment` (app.py:106-208), as a function
from its inputs to the HTTP response `(status, body)` and the ordered list
of outbound CRM calls it issues.  Each `.error` propagated to this level is
an uncaught Python exception, which the outer `except Exception` block turns
into `(500, {"error": str(e)})` (app.py:206-208); this mapping is applied
where the exception would escape.  The `pyIndex data "name"` step is the
f-string of the `logger.info` call at app.py:131, which subscripts `data`
outside the inner `try`. -/
def book_appointment (inp : BookInput) : (Nat × Json) × List Call :=
  match inp.data with
  | .error e => ((500, errObj e), [])
  | .ok data =>
    match findMissing data requiredFields with
    | .error e => ((500, errObj e), [])
    | .ok (some f) => ((400, errObj ("Missing '" ++ f ++ "' field")), [])
    | .ok none =>
      match pyIndex data "name" with
      | .error e => ((500, errObj e), [])
      | .ok _ =>
        match parseSlotTime data with
        | .error e => ((400, errObj ("Invalid datetime format: " ++ e)), [])
        | .ok t =>
          if ghlConfigured inp.env then
            match mkContactPayload data inp.env with
            | .error e => ((500, errObj e), [])
            | .ok (cp, nm) => afterContact inp t cp nm
          else ((500, errObj "GoHighLevel API configuration incomplete"), [])

/-! ## The `/voice` handler -/

/-- The JSON payload sent to the ElevenLabs endpoint (app.py:73-80).  The two
`voice_settings` float constants are recorded as their decimal literals. -/
structure TtsPayload where
  text : Json
  model_id : String
  stability : String
  similarity_boost : String

/-- The `text[:50]` slice in the `logger.info` f-string (app.py:56):
succeeds on sliceable values, raises a `TypeError` otherwise. -/
def pySlice50 (v : Json) : Except String Unit :=
  match v with
  | .str _ => .ok ()
  | .arr _ => .ok ()
  | _ => .error ("'" ++ pyTypeName v ++ "' object is not subscriptable")

/-- Result of `/voice`: either the audio attachment built by `send_file`
(app.py:89-94) or a JSON response with a status code. -/
inductive VoiceOut where
  | audio (content : String)
  | json (status : Nat) (body : Json)

/-- Inputs of one `/voice` request: the `request.get_json()` outcome, the two
ElevenLabs environment variables (app.py:25-26) and the response the
synthesis endpoint would return if called. -/
structure VoiceInput where
  data : Except String Json
  ELEVENLABS_API_KEY : Option String
  ELEVENLABS_VOICE_ID : Option String
  resp : HttpResp

/-- The `/voice` handler `generate_voice` (app.py:36-104), returning the
response and the list of synthesis calls issued.  `if not data or 'text' not
in data` (app.py:51) short-circuits: a falsy body never reaches the
membership test.  Uncaught exceptions map to the outer handler's generic
500 (app.py:102-104). -/
def generate_voice (inp : VoiceInput) : VoiceOut × List TtsPayload :=
  match inp.data with
  | .error e => (.json 500 (errObj e), [])
  | .ok data =>
    if ¬ pyTruthy data then (.json 400 (errObj "Missing 'text' field"), [])
    else
      match pyContains data "text" with
      | .error e => (.json 500 (errObj e), [])
      | .ok false => (.json 400 (errObj "Missing 'text' field"), [])
      | .ok true =>
        match pyIndex data "text" with
        | .error e => (.json 500 (errObj e), [])
        | .ok tv =>
          match pySlice50 tv with
          | .error e => (.json 500 (errObj e), [])
          | .ok _ =>
            if ¬ truthyOpt inp.ELEVENLABS_API_KEY then
              (.json 500 (errObj "ElevenLabs API key not configured"), [])
            else if ¬ truthyOpt inp.ELEVENLABS_VOICE_ID then
              (.json 500 (errObj "ElevenLabs voice ID not configured"), [])
            else
              let payload : TtsPayload := ⟨tv, "eleven_monolingual_v1", "0.5", "0.5"⟩
              if inp.resp.status = 200 then (.audio inp.resp.content, [payload])
              else
                (.json inp.resp.status
                  (errDetails "Failed to generate voice" inp.resp.text), [payload])

/-! ## Shared concrete fixtures -/

/-- A well-formed `/book` body with `selectedSlot = "2023-04-25T14:00:00"`. -/
def sampleBody : Json :=
  .obj [("name", .str "Jane Doe"), ("phone", .str "1234567890"),
        ("email", .str "jane@example.com"),
        ("selectedSlot", .str "2023-04-25T14:00:00")]

/-- A fully configured GoHighLevel environment. -/
def goodEnv : BookEnv := ⟨some "k", some "loc1", some "cal1"⟩

/-- A successful contact-upsert response with a top-level `id`. -/
def crOK : HttpResp := ⟨200, "ctext", "", .ok (.obj [("id", .str "c123")])⟩

/-- A successful appointment-creation response. -/
def kyOK : HttpResp := ⟨200, "ktext", "", .ok (.obj [("apptid", .str "a1")])⟩

/-! ## Characterisation of the `split(' ')` name derivation -/

theorem splitOnChar_ne_nil (c : Char) (l : List Char) : splitOnChar c l ≠ [] := by
  induction l with
  | nil => simp [splitOnChar]
  | cons x xs ih =>
    simp only [splitOnChar]
    by_cases hx : x = c
    · simp [hx]
    · simp only [if_neg hx]
      cases h : splitOnChar c xs with
      | nil => exact absurd h ih
      | cons a t => simp

theorem splitOnChar_headD (c : Char) (l : List Char) :
    (splitOnChar c l).headD [] = l.takeWhile (fun x => x != c) := by
  induction l with
  | nil => rfl
  | cons x xs ih =>
    simp only [splitOnChar, List.takeWhile]
    by_cases hx : x = c
    · simp [hx]
    · simp only [if_neg hx]
      cases h : splitOnChar c xs with
      | nil => exact absurd h (splitOnChar_ne_nil c xs)
      | cons a t =>
        rw [h] at ih
        simp only [List.headD_cons] at ih
        have hpx : (x != c) = true := by simp [hx]
        simp [hpx, ih]

theorem joinWith_splitOnChar (c : Char) (l : List Char) :
    joinWith c (splitOnChar c l) = l := by
  induction l with
  | nil => rfl
  | cons x xs ih =>
    simp only [splitOnChar]
    by_cases hx : x = c
    · subst hx
      simp only [if_pos rfl]
      cases h : splitOnChar x xs with
      | nil => exact absurd h (splitOnChar_ne_nil x xs)
      | cons a t =>
        rw [h] at ih
        simp [joinWith, ih]
    · simp only [if_neg hx]
      cases h : splitOnChar c xs with
      | nil => exact absurd h (splitOnChar_ne_nil c xs)
      | cons a t =>
        rw [h] at ih
        cases t with
        | nil => simpa [joinWith] using ih
        | cons b t2 =>
          simp only [joinWith] at ih ⊢
          simpa using ih

theorem joinWith_splitOnChar_tail (c : Char) (l : List Char) :
    joinWith c (splitOnChar c l).tail = (l.dropWhile (fun x => x != c)).tail := by
  induction l with
  | nil => rfl
  | cons x xs ih =>
    by_cases hx : x = c
    · subst hx
      simp only [splitOnChar, if_pos rfl, List.tail_cons, List.dropWhile]
      simp [joinWith_splitOnChar]
    · simp only [splitOnChar, if_neg hx]
      cases h : splitOnChar c xs with
      | nil => exact absurd h (splitOnChar_ne_nil c xs)
      | cons a t =>
        rw [h] at ih
        simp only [List.tail_cons] at ih ⊢
        have hpx : (fun x => x != c) x = true := by simp [hx]
        simp only [List.dropWhile, hpx]
        exact ih

/-- Python `str.split()` with no argument (the spec's "whitespace-delimited
tokens"): maximal runs of non-whitespace, with no empty tokens.  `acc` holds
the characters of the token being read, reversed. -/
def wsTokensAux (acc : List Char) : List Char → List (List Char)
  | [] => if acc.isEmpty then [] else [acc.reverse]
  | c :: cs =>
    if c.isWhitespace then
      if acc.isEmpty then wsTokensAux [] cs
      else acc.reverse :: wsTokensAux [] cs
    else wsTokensAux (c :: acc) cs

/-- The whitespace-delimited tokens of a string, per the spec's words. -/
def specTokens (s : String) : List String :=
  (wsTokensAux [] s.data).map String.mk

/-- Follows the spec's words for C9: "`lastName` = remaining tokens joined by
a single space, or empty string if `name` has only one token". -/
def specLastName (s : String) : String :=
  " ".intercalate (specTokens s).tail

theorem pyFirstName_eq (name : String) :
    pyFirstName name = String.mk (name.data.takeWhile (fun x => x != ' ')) := by
  unfold pyFirstName
  rw [splitOnChar_headD]

theorem pyLastName_eq (name : String) :
    pyLastName name = String.mk ((name.data.dropWhile (fun x => x != ' ')).tail) := by
  unfold pyLastName
  by_cases h : (splitOnChar ' ' name.data).length > 1
  · rw [if_pos h, joinWith_splitOnChar_tail]
  · rw [if_neg h]
    cases hs : splitOnChar ' ' name.data with
    | nil => exact absurd hs (splitOnChar_ne_nil ' ' name.data)
    | cons a t =>
      cases t with
      | cons b t2 => rw [hs] at h; simp at h
      | nil =>
        have ha : a = name.data := by
          have hj := joinWith_splitOnChar ' ' name.data
          rw [hs] at hj
          simpa [joinWith] using hj
        have htw : a = name.data.takeWhile (fun x => x != ' ') := by
          have hh := splitOnChar_headD ' ' name.data
          rw [hs] at hh
          simpa using hh
        have hself : name.data.takeWhile (fun x => x != ' ') = name.data := by
          rw [← htw, ha]
        have hdrop : name.data.dropWhile (fun x => x != ' ') = [] := by
          rw [List.dropWhile_eq_nil_iff]
          exact List.takeWhile_eq_self_iff.mp hself
        rw [hdrop]
        rfl

/-! ## Path lemmas for the `/book` handler -/

/-- Under the hypotheses that drive a request past validation, time parsing,
the configuration guard and the payload build, the handler reduces to its
post-contact-call tail. -/
theorem book_path (inp : BookInput) (data nv : Json) (t : PyDateTime)
    (cp : ContactPayload) (nm : String)
    (h1 : inp.data = .ok data)
    (h2 : findMissing data requiredFields = .ok none)
    (h3 : pyIndex data "name" = .ok nv)
    (h4 : parseSlotTime data = .ok t)
    (h5 : ghlConfigured inp.env = true)
    (h6 : mkContactPayload data inp.env = .ok (cp, nm)) :
    book_appointment inp = afterContact inp t cp nm := by
  simp only [book_appointment, h1, h2, h3, h4, h5, h6, if_true]

/-- A contact-upsert response outside {200, 201} yields the fixed 500 with
the upstream body in `details`, after exactly one outbound call. -/
theorem book_contact_fail (inp : BookInput) (data nv : Json) (t : PyDateTime)
    (cp : ContactPayload) (nm : String)
    (h1 : inp.data = .ok data)
    (h2 : findMissing data requiredFields = .ok none)
    (h3 : pyIndex data "name" = .ok nv)
    (h4 : parseSlotTime data = .ok t)
    (h5 : ghlConfigured inp.env = true)
    (h6 : mkContactPayload data inp.env = .ok (cp, nm))
    (h7 : inp.contactResp.status < 200 ∨ 300 ≤ inp.contactResp.status) :
    book_appointment inp =
      ((500, errDetails "Failed to create contact" inp.contactResp.text),
       [.contact cp]) := by
  rw [book_path inp data nv t cp nm h1 h2 h3 h4 h5 h6]
  unfold afterContact
  rw [if_neg (by simp only [List.mem_cons, List.not_mem_nil, or_false]; omega)]

/-- Whatever the upstream responses, the post-contact-call tail's trace
starts with the contact call. -/
theorem afterContact_trace (inp : BookInput) (t : PyDateTime)
    (cp : ContactPayload) (nm : String) :
    ∃ rest, (afterContact inp t cp nm).2 = .contact cp :: rest := by
  unfold afterContact
  split
  · split
    · exact ⟨[], rfl⟩
    · split
      · exact ⟨[], rfl⟩
      · split
        · split
          · split
            · exact ⟨[.appointment _], rfl⟩
            · exact ⟨[.appointment _], rfl⟩
          · exact ⟨[.appointment _], rfl⟩
        · exact ⟨[], rfl⟩
  · exact ⟨[], rfl⟩

/-- On a dict body the validation loop returns the first required field whose
key is absent. -/
theorem findMissing_obj (fs : List (String × Json)) (l : List String) :
    findMissing (.obj fs) l = .ok (l.find? (fun f => !(jlookup fs f).isSome)) := by
  induction l with
  | nil => rfl
  | cons f rest ih =>
    simp only [findMissing, pyContains, List.find?]
    cases h : (jlookup fs f).isSome with
    | true => simp [h, ih]
    | false => simp [h]

/-! ## Claims -/

/-- C1: for every `/book` request in which either CRM call returns a non-2xx
status, the handler returns HTTP 500 with a `details` field equal to the
upstream response body verbatim, and makes no outbound CRM call after the
failing one: a contact-upsert failure leaves the trace at exactly the
contact call (the appointment endpoint is never reached), and an
appointment-creation failure after a successful upsert ends the trace at
exactly those two calls (no compensating call). -/
theorem c1_upstream_failure_propagation (inp : BookInput) (data nv : Json)
    (t : PyDateTime) (cp : ContactPayload) (nm : String)
    (h1 : inp.data = .ok data)
    (h2 : findMissing data requiredFields = .ok none)
    (h3 : pyIndex data "name" = .ok nv)
    (h4 : parseSlotTime data = .ok t)
    (h5 : ghlConfigured inp.env = true)
    (h6 : mkContactPayload data inp.env = .ok (cp, nm)) :
    ((inp.contactResp.status < 200 ∨ 300 ≤ inp.contactResp.status) →
      book_appointment inp =
        ((500, errDetails "Failed to create contact" inp.contactResp.text),
         [.contact cp])) ∧
    ((inp.contactResp.status = 200 ∨ inp.contactResp.status = 201) →
      ∀ cd cid, inp.contactResp.jsonBody = .ok cd →
        extractContactId cd = .ok cid → pyTruthy cid = true →
        (inp.calendarResp.status < 200 ∨ 300 ≤ inp.calendarResp.status) →
        book_appointment inp =
          ((500, errDetails "Failed to book appointment" inp.calendarResp.text),
           [.contact cp, .appointment (calPayload inp cid t nm)])) := by
  constructor
  · intro h7
    exact book_contact_fail inp data nv t cp nm h1 h2 h3 h4 h5 h6 h7
  · intro hst cd cid hcd hcid htr hk
    rw [book_path inp data nv t cp nm h1 h2 h3 h4 h5 h6]
    unfold afterContact
    rw [if_pos (by simp only [List.mem_cons, List.not_mem_nil, or_false]; tauto)]
    simp only [hcd, hcid, htr, if_true]
    rw [if_neg (by simp only [List.mem_cons, List.not_mem_nil, or_false]; omega)]

/-- C1 witness: with a well-formed request and a 422 contact upsert, the
response is the fixed 500 carrying the upstream body and the trace holds
exactly the contact call. -/
theorem c1_witness :
    book_appointment ⟨.ok sampleBody, goodEnv, ⟨422, "invalid email", "", .ok .null⟩, kyOK⟩ =
      ((500, errDetails "Failed to create contact" "invalid email"),
       [.contact ⟨.str "jane@example.com", .str "1234567890", "Jane", "Doe", some "loc1"⟩]) :=
  (c1_upstream_failure_propagation
    ⟨.ok sampleBody, goodEnv, ⟨422, "invalid email", "", .ok .null⟩, kyOK⟩
    sampleBody (.str "Jane Doe") ⟨⟨2023, 4, 25, 14, 0, 0, 0⟩, some (-18000)⟩
    ⟨.str "jane@example.com", .str "1234567890", "Jane", "Doe", some "loc1"⟩
    "Jane Doe" rfl rfl rfl rfl rfl rfl).1 (Or.inr (by decide))

/-- C2: with `selectedSlot = "2023-04-25T14:00:00"` the normalization step
yields 14:00:00 on 2023-04-25 bound to America/Chicago, whose offset on
that date is CDT (-05:00, daylight-saving aware), and both downstream
serializations — the `startTime` of the appointment payload and the
`scheduled_time` of the 200 body — are that instant in ISO-8601 with the
offset, never naive. -/
theorem c2_slot_localization (inp : BookInput) (cd cid aj : Json)
    (h1 : inp.data = .ok sampleBody) (h2 : inp.env = goodEnv)
    (hc : inp.contactResp.status = 200 ∨ inp.contactResp.status = 201)
    (hcd : inp.contactResp.jsonBody = .ok cd)
    (hcid : extractContactId cd = .ok cid) (htr : pyTruthy cid = true)
    (hk : inp.calendarResp.status = 200 ∨ inp.calendarResp.status = 201)
    (haj : inp.calendarResp.jsonBody = .ok aj) :
    parseSlotTime sampleBody = .ok ⟨⟨2023, 4, 25, 14, 0, 0, 0⟩, some (-18000)⟩ ∧
    chicagoOffsetSec ⟨2023, 4, 25, 14, 0, 0, 0⟩ = -18000 ∧
    (⟨⟨2023, 4, 25, 14, 0, 0, 0⟩, some (-18000)⟩ : PyDateTime).isoformat =
      "2023-04-25T14:00:00-05:00" ∧
    book_appointment inp =
      ((200, .obj [("success", .bool true),
                   ("message", .str "Appointment booked successfully"),
                   ("scheduled_time", .str "2023-04-25T14:00:00-05:00"),
                   ("appointment", aj)]),
       [.contact ⟨.str "jane@example.com", .str "1234567890", "Jane", "Doe",
          some "loc1"⟩,
        .appointment ⟨some "cal1", cid, "2023-04-25T14:00:00-05:00",
          "Appointment with Jane Doe", "Appointment booked via VAPPI Voice Bot",
          some "loc1"⟩]) := by
  refine ⟨rfl, rfl, rfl, ?_⟩
  rw [book_path inp sampleBody (.str "Jane Doe")
    ⟨⟨2023, 4, 25, 14, 0, 0, 0⟩, some (-18000)⟩
    ⟨.str "jane@example.com", .str "1234567890", "Jane", "Doe", some "loc1"⟩
    "Jane Doe" h1 rfl rfl rfl (by rw [h2]; rfl) (by rw [h2]; rfl)]
  unfold afterContact
  rw [if_pos (by simp only [List.mem_cons, List.not_mem_nil, or_false]; tauto)]
  simp only [hcd, hcid, htr, if_true]
  rw [if_pos (by simp only [List.mem_cons, List.not_mem_nil, or_false]; tauto)]
  simp only [haj]
  unfold calPayload successBody
  rw [h2]
  rfl

/-- C2 witness: the fully concrete booking run, with both serializations
carrying the CDT offset. -/
theorem c2_witness :
    book_appointment ⟨.ok sampleBody, goodEnv, crOK, kyOK⟩ =
      ((200, .obj [("success", .bool true),
                   ("message", .str "Appointment booked successfully"),
                   ("scheduled_time", .str "2023-04-25T14:00:00-05:00"),
                   ("appointment", .obj [("apptid", .str "a1")])]),
       [.contact ⟨.str "jane@example.com", .str "1234567890", "Jane", "Doe",
          some "loc1"⟩,
        .appointment ⟨some "cal1", .str "c123", "2023-04-25T14:00:00-05:00",
          "Appointment with Jane Doe", "Appointment booked via VAPPI Voice Bot",
          some "loc1"⟩]) :=
  (c2_slot_localization ⟨.ok sampleBody, goodEnv, crOK, kyOK⟩
    (.obj [("id", .str "c123")]) (.str "c123") (.obj [("apptid", .str "a1")])
    rfl rfl (Or.inl rfl) rfl rfl rfl (Or.inl rfl) rfl).2.2.2

/-- A well-formed `/book` body whose slot carries an explicit UTC offset. -/
def offsetSlotBody : Json :=
  .obj [("name", .str "Jane Doe"), ("phone", .str "1234567890"),
        ("email", .str "jane@example.com"),
        ("selectedSlot", .str "2023-04-25T14:00:00+02:00")]

/-- C3 counterexample: for `selectedSlot = "2023-04-25T14:00:00+02:00"` the
normalization step does not succeed at all — `pytz`'s `localize` raises on
an aware datetime — so the claim that it succeeds and silently overwrites
the caller's offset with America/Chicago is false: `/book` answers 400 and
makes no CRM call. -/
theorem c3_offset_overwrite_cex :
    fromisoformat "2023-04-25T14:00:00+02:00" =
      .ok ⟨⟨2023, 4, 25, 14, 0, 0, 0⟩, some 7200⟩ ∧
    parseSlotTime offsetSlotBody =
      .error "Not naive datetime (tzinfo is already set)" ∧
    book_appointment ⟨.ok offsetSlotBody, goodEnv, crOK, kyOK⟩ =
      ((400, errObj "Invalid datetime format: Not naive datetime (tzinfo is already set)"),
       []) :=
  ⟨rfl, rfl, rfl⟩

/-- C3 (amended): for every `selectedSlot` string that parses to a datetime
carrying an explicit UTC offset, the normalization step fails — `localize`
raises `ValueError("Not naive datetime (tzinfo is already set)")` — and
`/book` returns 400 with that detail, making no CRM call; the caller's
offset is never silently discarded. -/
theorem c3_offset_slot_rejected (inp : BookInput) (data nv : Json) (s : String)
    (u : PyDateTime) (off : Int)
    (h1 : inp.data = .ok data)
    (h2 : findMissing data requiredFields = .ok none)
    (h3 : pyIndex data "name" = .ok nv)
    (h4 : pyIndex data "selectedSlot" = .ok (.str s))
    (h5 : fromisoformat s = .ok u)
    (h6 : u.tzOffsetSec = some off) :
    parseSlotTime data = .error "Not naive datetime (tzinfo is already set)" ∧
    book_appointment inp =
      ((400, errObj "Invalid datetime format: Not naive datetime (tzinfo is already set)"),
       []) := by
  have hp : parseSlotTime data = .error "Not naive datetime (tzinfo is already set)" := by
    simp only [parseSlotTime, h4, h5, pytzLocalize, h6]
  exact ⟨hp, by simp only [book_appointment, h1, h2, h3, hp]; rfl⟩

/-- C3 witness: the amended claim at the concrete offset-carrying slot. -/
theorem c3_witness :
    parseSlotTime offsetSlotBody =
      .error "Not naive datetime (tzinfo is already set)" ∧
    book_appointment ⟨.ok offsetSlotBody, goodEnv,
        ⟨201, "x", "", .ok (.obj [("id", .str "c9")])⟩, kyOK⟩ =
      ((400, errObj "Invalid datetime format: Not naive datetime (tzinfo is already set)"),
       []) :=
  c3_offset_slot_rejected
    ⟨.ok offsetSlotBody, goodEnv, ⟨201, "x", "", .ok (.obj [("id", .str "c9")])⟩, kyOK⟩
    offsetSlotBody (.str "Jane Doe") "2023-04-25T14:00:00+02:00"
    ⟨⟨2023, 4, 25, 14, 0, 0, 0⟩, some 7200⟩ 7200 rfl rfl rfl rfl rfl rfl

/-- A 2xx contact-upsert response whose body's `contact` member is not an
object. -/
def badContactResp : HttpResp := ⟨200, "ct", "", .ok (.obj [("contact", .num 5)])⟩

/-- C4 counterexample: on a 200 contact-upsert response with body
`{"contact": 5}` — where neither accepted shape yields an identifier — the
handler does not answer with the message "Failed to get contact ID": the
chained `.get` raises `AttributeError` and the outer handler returns its
text instead. -/
theorem c4_contact_id_cex :
    book_appointment ⟨.ok sampleBody, goodEnv, badContactResp, kyOK⟩ =
      ((500, errObj "'int' object has no attribute 'get'"),
       [.contact ⟨.str "jane@example.com", .str "1234567890", "Jane", "Doe",
          some "loc1"⟩]) ∧
    errObj "'int' object has no attribute 'get'" ≠
      errObj "Failed to get contact ID" := by
  refine ⟨rfl, ?_⟩
  simp [errObj]

/-- C4 (amended): the contact identifier is extracted from exactly the two
object shapes — a top-level `id` key (`{"id": "c123"}` yields `"c123"`) or
an `id` nested under a `contact` object (`{"contact": {"id": "c456"}}`
yields `"c456"`) — and whenever the extraction evaluates without raising but
yields no truthy identifier, `/book` returns 500 with "Failed to get contact
ID" and the appointment endpoint is never called; a 2xx body that is not an
object, or whose `contact` member is not an object, instead raises and
produces the generic 500 carrying the exception text. -/
theorem c4_contact_id_extraction (inp : BookInput) (data nv : Json)
    (t : PyDateTime) (cp : ContactPayload) (nm : String)
    (h1 : inp.data = .ok data)
    (h2 : findMissing data requiredFields = .ok none)
    (h3 : pyIndex data "name" = .ok nv)
    (h4 : parseSlotTime data = .ok t)
    (h5 : ghlConfigured inp.env = true)
    (h6 : mkContactPayload data inp.env = .ok (cp, nm)) :
    extractContactId (.obj [("id", .str "c123")]) = .ok (.str "c123") ∧
    extractContactId (.obj [("contact", .obj [("id", .str "c456")])]) =
      .ok (.str "c456") ∧
    ((inp.contactResp.status = 200 ∨ inp.contactResp.status = 201) →
      ∀ cd cid, inp.contactResp.jsonBody = .ok cd →
        extractContactId cd = .ok cid → pyTruthy cid = false →
        book_appointment inp =
          ((500, errObj "Failed to get contact ID"), [.contact cp])) := by
  refine ⟨rfl, rfl, ?_⟩
  intro hst cd cid hcd hcid hfalse
  rw [book_path inp data nv t cp nm h1 h2 h3 h4 h5 h6]
  unfold afterContact
  rw [if_pos (by simp only [List.mem_cons, List.not_mem_nil, or_false]; tauto)]
  simp only [hcd, hcid, hfalse]
  rfl

/-- C4 witness: a 200 upsert whose body holds only a falsy top-level id and
no nested one yields the dedicated 500 without an appointment call. -/
theorem c4_witness :
    book_appointment ⟨.ok sampleBody, goodEnv,
        ⟨200, "ct", "", .ok (.obj [("id", .str "")])⟩, kyOK⟩ =
      ((500, errObj "Failed to get contact ID"),
       [.contact ⟨.str "jane@example.com", .str "1234567890", "Jane", "Doe",
          some "loc1"⟩]) :=
  (c4_contact_id_extraction
    ⟨.ok sampleBody, goodEnv, ⟨200, "ct", "", .ok (.obj [("id", .str "")])⟩, kyOK⟩
    sampleBody (.str "Jane Doe") ⟨⟨2023, 4, 25, 14, 0, 0, 0⟩, some (-18000)⟩
    ⟨.str "jane@example.com", .str "1234567890", "Jane", "Doe", some "loc1"⟩
    "Jane Doe" rfl rfl rfl rfl rfl rfl).2.2 (Or.inl rfl)
    (.obj [("id", .str "")]) .null rfl rfl rfl

/-- C5: for every `/book` request whose JSON-object body lacks one of the
four required fields, the response is 400 with an error message naming a
missing field, and no outbound CRM call is made. -/
theorem c5_missing_field_rejected (inp : BookInput) (fs : List (String × Json))
    (h1 : inp.data = .ok (.obj fs))
    (h2 : ∃ f ∈ requiredFields, jlookup fs f = none) :
    ∃ g ∈ requiredFields, jlookup fs g = none ∧
      book_appointment inp =
        ((400, errObj ("Missing '" ++ g ++ "' field")), []) := by
  have hfind : (requiredFields.find? (fun f => !(jlookup fs f).isSome)).isSome := by
    rw [List.find?_isSome]
    obtain ⟨f, hf, hnone⟩ := h2
    exact ⟨f, hf, by simp [hnone]⟩
  obtain ⟨g, hg⟩ := Option.isSome_iff_exists.mp hfind
  refine ⟨g, List.mem_of_find?_eq_some hg, ?_, ?_⟩
  · have := List.find?_some hg
    simpa using this
  · simp only [book_appointment, h1, findMissing_obj, hg]

/-- C5 witness: a body holding only `name` and `phone` is rejected with 400
naming a missing field and an empty call trace. -/
theorem c5_witness :
    ∃ g ∈ requiredFields,
      jlookup [("name", Json.str "J"), ("phone", Json.str "1")] g = none ∧
      book_appointment ⟨.ok (.obj [("name", .str "J"), ("phone", .str "1")]),
          goodEnv, crOK, kyOK⟩ =
        ((400, errObj ("Missing '" ++ g ++ "' field")), []) :=
  c5_missing_field_rejected
    ⟨.ok (.obj [("name", .str "J"), ("phone", .str "1")]), goodEnv, crOK, kyOK⟩
    [("name", Json.str "J"), ("phone", Json.str "1")] rfl
    ⟨"email", by simp [requiredFields], rfl⟩

/-- A well-formed `/book` body with an unparseable slot. -/
def badSlotBody : Json :=
  .obj [("name", .str "Jane Doe"), ("phone", .str "1234567890"),
        ("email", .str "jane@example.com"), ("selectedSlot", .str "not-a-date")]

/-- C6: for every `/book` request whose `selectedSlot` string fails ISO-8601
parsing, the response is 400 with a message carrying the parser's failure
detail verbatim, and no outbound call is made; the 400 outcome is
unconditional in everything but the parse result, so no fallback to "now"
or truncation can occur. -/
theorem c6_unparseable_slot_rejected (inp : BookInput) (data nv : Json)
    (s e : String)
    (h1 : inp.data = .ok data)
    (h2 : findMissing data requiredFields = .ok none)
    (h3 : pyIndex data "name" = .ok nv)
    (h4 : pyIndex data "selectedSlot" = .ok (.str s))
    (h5 : fromisoformat s = .error e) :
    book_appointment inp =
      ((400, errObj ("Invalid datetime format: " ++ e)), []) := by
  have hp : parseSlotTime data = .error e := by
    simp only [parseSlotTime, h4, h5]
  simp only [book_appointment, h1, h2, h3, hp]

/-- C6 witness: the two spec examples — a malformed string and out-of-range
components — both reach the 400 with the parser's message and no calls. -/
theorem c6_witness :
    book_appointment ⟨.ok badSlotBody, goodEnv, crOK, kyOK⟩ =
      ((400, errObj "Invalid datetime format: Invalid isoformat string: 'not-a-date'"),
       []) ∧
    fromisoformat "2023-13-40T99:00:00" = .error "month must be in 1..12" :=
  ⟨c6_unparseable_slot_rejected ⟨.ok badSlotBody, goodEnv, crOK, kyOK⟩
    badSlotBody (.str "Jane Doe") "not-a-date"
    "Invalid isoformat string: 'not-a-date'" rfl rfl rfl rfl rfl, rfl⟩

/-- A `/book` body with all four keys present but `phone` bound to `null`. -/
def nullPhoneFields : List (String × Json) :=
  [("name", .str "Jane Doe"), ("phone", .null),
   ("email", .str "jane@example.com"),
   ("selectedSlot", .str "2023-04-25T14:00:00")]

/-- C7 counterexample: a request whose `phone` is present but `null` passes
validation and proceeds to the contact-upsert network call, the null
travelling into the payload — so validation does not reject null-valued
fields before network effects. -/
theorem c7_null_field_cex :
    jlookup nullPhoneFields "phone" = some .null ∧
    book_appointment ⟨.ok (.obj nullPhoneFields), goodEnv,
        ⟨422, "nope", "", .ok .null⟩, kyOK⟩ =
      ((500, errDetails "Failed to create contact" "nope"),
       [.contact ⟨.str "jane@example.com", .null, "Jane", "Doe", some "loc1"⟩]) :=
  ⟨rfl, rfl⟩

/-- C7 (amended): validation checks presence only — any object body with the
four keys present passes it, whatever the values (null included) — and a
request that then survives time parsing and the configuration guard reaches
the contact-upsert call with the stored `phone`/`email` values verbatim, a
null phone or email included.  (A null `selectedSlot` still fails time
parsing with a 400 before any call, and a null `name` raises while building
the payload, before any call.) -/
theorem c7_presence_only_validation (inp : BookInput)
    (fs : List (String × Json)) (ev pv : Json) (nm : String) (t : PyDateTime)
    (h1 : inp.data = .ok (.obj fs))
    (hk : ∀ f ∈ requiredFields, (jlookup fs f).isSome = true)
    (hemail : jlookup fs "email" = some ev)
    (hphone : jlookup fs "phone" = some pv)
    (hname : jlookup fs "name" = some (.str nm))
    (ht : parseSlotTime (.obj fs) = .ok t)
    (hcfg : ghlConfigured inp.env = true) :
    findMissing (.obj fs) requiredFields = .ok none ∧
    ∃ rest, (book_appointment inp).2 =
      .contact ⟨ev, pv, pyFirstName nm, pyLastName nm, inp.env.GHL_LOCATION_ID⟩
        :: rest := by
  have hfm : findMissing (.obj fs) requiredFields = .ok none := by
    rw [findMissing_obj]
    have hnone : requiredFields.find? (fun f => !(jlookup fs f).isSome) = none := by
      rw [List.find?_eq_none]
      intro f hf
      simp [hk f hf]
    rw [hnone]
  refine ⟨hfm, ?_⟩
  have hn : pyIndex (.obj fs) "name" = .ok (.str nm) := by
    simp only [pyIndex, hname]
  have hmk : mkContactPayload (.obj fs) inp.env =
      .ok (⟨ev, pv, pyFirstName nm, pyLastName nm, inp.env.GHL_LOCATION_ID⟩, nm) := by
    simp only [mkContactPayload, pyIndex, hemail, hphone, hname]
  rw [book_path inp (.obj fs) (.str nm) t
    ⟨ev, pv, pyFirstName nm, pyLastName nm, inp.env.GHL_LOCATION_ID⟩ nm
    h1 hfm hn ht hcfg hmk]
  exact afterContact_trace inp t _ nm

/-- C7 witness: the amended claim at the null-phone body — validation passes
and the trace opens with a contact call whose phone is null. -/
theorem c7_witness :
    findMissing (.obj nullPhoneFields) requiredFields = .ok none ∧
    ∃ rest,
      (book_appointment ⟨.ok (.obj nullPhoneFields), goodEnv, crOK, kyOK⟩).2 =
        .contact ⟨.str "jane@example.com", .null, "Jane", "Doe", some "loc1"⟩
          :: rest :=
  c7_presence_only_validation
    ⟨.ok (.obj nullPhoneFields), goodEnv, crOK, kyOK⟩ nullPhoneFields
    (.str "jane@example.com") .null "Jane Doe"
    ⟨⟨2023, 4, 25, 14, 0, 0, 0⟩, some (-18000)⟩
    rfl (by decide) rfl rfl rfl rfl rfl

/-- A `/voice` request whose synthesis call comes back 401. -/
def voice401 : VoiceInput :=
  ⟨.ok (.obj [("text", .str "hello")]), some "ek", some "vid",
   ⟨401, "unauthorized", "",
    .error "Expecting value: line 1 column 1 (char 0)"⟩⟩

/-- C8 counterexample: a 401 from the speech-synthesis provider makes
`/voice` answer with status 401 — the upstream status passed through, which
is not a 500-class response. -/
theorem c8_voice_not_500_cex :
    generate_voice voice401 =
      (.json 401 (errDetails "Failed to generate voice" "unauthorized"),
       [⟨.str "hello", "eleven_monolingual_v1", "0.5", "0.5"⟩]) ∧
    ¬ (500 ≤ 401 ∧ 401 < 600) :=
  ⟨rfl, by omega⟩

/-- C8 (amended): on a non-200 from the speech-synthesis provider, `/voice`
responds with the upstream status code itself (a passthrough, not
necessarily 500-class) and `details` equal to the upstream body verbatim;
on a non-2xx from the CRM contact endpoint, `/book` responds with a fixed
500 whose `details` is the upstream body verbatim (the upstream status code
is not included in the response). -/
theorem c8_upstream_error_statuses (v : VoiceInput) (d tv : Json)
    (h1 : v.data = .ok d) (h2 : pyTruthy d = true)
    (h3 : pyContains d "text" = .ok true)
    (h4 : pyIndex d "text" = .ok tv)
    (h5 : pySlice50 tv = .ok ())
    (h6 : truthyOpt v.ELEVENLABS_API_KEY = true)
    (h7 : truthyOpt v.ELEVENLABS_VOICE_ID = true)
    (h8 : v.resp.status ≠ 200)
    (b : BookInput) (data nv : Json) (t : PyDateTime) (cp : ContactPayload)
    (nm : String)
    (g1 : b.data = .ok data) (g2 : findMissing data requiredFields = .ok none)
    (g3 : pyIndex data "name" = .ok nv) (g4 : parseSlotTime data = .ok t)
    (g5 : ghlConfigured b.env = true)
    (g6 : mkContactPayload data b.env = .ok (cp, nm))
    (g7 : b.contactResp.status < 200 ∨ 300 ≤ b.contactResp.status) :
    generate_voice v =
      (.json v.resp.status (errDetails "Failed to generate voice" v.resp.text),
       [⟨tv, "eleven_monolingual_v1", "0.5", "0.5"⟩]) ∧
    book_appointment b =
      ((500, errDetails "Failed to create contact" b.contactResp.text),
       [.contact cp]) := by
  constructor
  · simp [generate_voice, h1, h2, h3, h4, h5, h6, h7, h8]
  · exact book_contact_fail b data nv t cp nm g1 g2 g3 g4 g5 g6 g7

/-- C8 witness: the amended claim at a 401 synthesis response and a 503
contact-upsert response. -/
theorem c8_witness :
    generate_voice voice401 =
      (.json voice401.resp.status
        (errDetails "Failed to generate voice" voice401.resp.text),
       [⟨.str "hello", "eleven_monolingual_v1", "0.5", "0.5"⟩]) ∧
    book_appointment ⟨.ok sampleBody, goodEnv, ⟨503, "busy", "", .ok .null⟩, kyOK⟩ =
      ((500, errDetails "Failed to create contact" "busy"),
       [.contact ⟨.str "jane@example.com", .str "1234567890", "Jane", "Doe",
          some "loc1"⟩]) :=
  c8_upstream_error_statuses voice401 (.obj [("text", .str "hello")])
    (.str "hello") rfl rfl rfl rfl rfl rfl rfl (by decide)
    ⟨.ok sampleBody, goodEnv, ⟨503, "busy", "", .ok .null⟩, kyOK⟩
    sampleBody (.str "Jane Doe") ⟨⟨2023, 4, 25, 14, 0, 0, 0⟩, some (-18000)⟩
    ⟨.str "jane@example.com", .str "1234567890", "Jane", "Doe", some "loc1"⟩
    "Jane Doe" rfl rfl rfl rfl rfl rfl (Or.inr (by decide))

/-- C9 counterexample: for `name = "Jane  Doe Smith"` (two consecutive
spaces) the code's `lastName` is `" Doe Smith"`, while the remaining
whitespace-delimited tokens joined by a single space — the claim's words —
give `"Doe Smith"`: the universal claim fails. -/
theorem c9_name_split_cex :
    pyLastName "Jane  Doe Smith" = " Doe Smith" ∧
    specLastName "Jane  Doe Smith" = "Doe Smith" ∧
    pyLastName "Jane  Doe Smith" ≠ specLastName "Jane  Doe Smith" :=
  ⟨rfl, rfl, by decide⟩

/-- C9 (amended): the split is on single space characters, not general
whitespace: for every name, `firstName` is the prefix of `name` before the
first space character (the whole string when there is none) and `lastName`
is the remainder after that first space (empty when there is none), so
consecutive spaces and non-space whitespace are preserved verbatim; in
particular "Jane Doe Smith" yields ("Jane", "Doe Smith") and "Prince"
yields ("Prince", ""). -/
theorem c9_name_split (name : String) :
    pyFirstName name = String.mk (name.data.takeWhile (fun x => x != ' ')) ∧
    pyLastName name = String.mk ((name.data.dropWhile (fun x => x != ' ')).tail) ∧
    pyFirstName "Jane Doe Smith" = "Jane" ∧
    pyLastName "Jane Doe Smith" = "Doe Smith" ∧
    pyFirstName "Prince" = "Prince" ∧
    pyLastName "Prince" = "" :=
  ⟨pyFirstName_eq name, pyLastName_eq name, rfl, rfl, rfl, rfl⟩

/-- C10 counterexample: for a JSON-array body — not a JSON object — the
membership test does not raise: `/book` answers with the 400-class
missing-field error, so the claim's "never the 400-class missing-field
error" fails for non-object iterable bodies. -/
theorem c10_array_body_cex :
    book_appointment ⟨.ok (.arr []), goodEnv, crOK, kyOK⟩ =
      ((400, errObj "Missing 'name' field"), []) := rfl

/-- C10 (amended): for a `/book` request whose body is absent or unreadable
(the exception from `request.get_json()` propagates) or parses to a
non-iterable value such as the JSON literal `null` or a number, an exception
is raised before any validation outcome, the outermost handler catches it,
and the response is a generic 500 carrying the exception's message; no CRM
call is made and the handler returns normally.  Iterable non-object bodies
(arrays, strings) instead pass the membership test without raising and can
produce the 400 missing-field response. -/
theorem c10_unreadable_body (inp : BookInput) :
    (inp.data = .ok .null →
      book_appointment inp =
        ((500, errObj "argument of type 'NoneType' is not iterable"), [])) ∧
    (∀ n : Int, inp.data = .ok (.num n) →
      book_appointment inp =
        ((500, errObj "argument of type 'int' is not iterable"), [])) ∧
    (∀ e, inp.data = .error e →
      book_appointment inp = ((500, errObj e), [])) := by
  refine ⟨fun h => ?_, fun n h => ?_, fun e h => ?_⟩ <;>
    (simp only [book_appointment, h]; try rfl)

/-- C10 witness: a body that is the JSON literal `null` yields the generic
500 with the `TypeError` text and an empty call trace. -/
theorem c10_witness :
    book_appointment ⟨.ok .null, goodEnv, crOK, kyOK⟩ =
      ((500, errObj "argument of type 'NoneType' is not iterable"), []) :=
  (c10_unreadable_body ⟨.ok .null, goodEnv, crOK, kyOK⟩).1 rfl

end Vappi
